import Mathlib

/-!
Shallow embedding of the xcx-arduino board-connection core:
`ArduinoBoard` (src/gui/.../entry/index.jsx, second document: arduino-board),
`ArduinoConnector` (src/vm/extensions/block/arduino-connector.js) and the
command surface `ArduinoBlocks` (src/vm/extensions/block/index.js).

JavaScript objects are modelled as Lean structures; `null`/`undefined` fields
as `Option`; reference identity of `Firmata` handles as structural equality of
handle records carrying a unique `id`.  Side effects (protocol commands,
transport teardown, event emissions) are returned as an explicit `Action`
list.  Asynchronous inputs (whether the serial port opens, whether and when a
sample or the "ready" signal arrives) are passed in as explicit parameters;
`Promise.race` against a timer is modelled by comparing the arrival time with
the deadline.
-/

namespace XcxArduino

/-- Firmata pin-mode constants (`MODES` table, arduino-board lines 80-95). -/
def MODES_INPUT : Nat := 0x00

def MODES_OUTPUT : Nat := 0x01

def MODES_ANALOG : Nat := 0x02

def MODES_PWM : Nat := 0x03

def MODES_SERVO : Nat := 0x04

def MODES_PULLUP : Nat := 0x0B

/-- Digital HIGH constant of the firmata client (`board.HIGH`). -/
def HIGH : Nat := 1

/-- Digital LOW constant of the firmata client (`board.LOW`). -/
def LOW : Nat := 0

/-- Board lifecycle states: the string values `'disconnect'`,
`'portRequesting'`, `'connect'`, `'ready'` assigned to `this.state`. -/
inductive BState
  | disconnect
  | portRequesting
  | connect
  | ready
  deriving DecidableEq, Repr

/-- One firmata pin record (`this.firmata.pins[pin]`): `mode` and
`updateTime` start out `undefined`, `inputBias` also starts `undefined`. -/
structure Pin where
  mode : Option Nat
  value : Nat
  updateTime : Option Nat
  updating : Bool
  inputBias : Option Nat
  deriving DecidableEq, Repr

/-- A firmata protocol-client handle.  `id` stands for the JS object
identity tested by `this.firmata !== firmata`; `isOpen` mirrors
`firmata.isOpen`; `pins` is the pin table owned by the handle. -/
structure Firmata where
  id : Nat
  isOpen : Bool
  pins : List Pin
  deriving DecidableEq, Repr

/-- The mutable fields of an `ArduinoBoard` instance that the claims are
about: `state`, the current firmata handle (or `null`) and `extensionId`. -/
structure Board where
  state : BState
  firmata : Option Firmata
  extensionId : Option String
  deriving DecidableEq, Repr

/-- Observable side effects: protocol commands sent through the firmata
client, transport teardown steps, and events emitted to listeners. -/
inductive Action
  | closeTransport
  | removeListeners
  | resetFirmata
  | i2cConfig
  | emitReleased
  | emitConnectionLost
  | requestOpen
  | resolveConnect
  | pinMode (mode : Option Nat)
  | reportDigital (onOff : Nat)
  | reportAnalog (onOff : Nat)
  | digitalWrite (v : Nat)
  | pwmWrite (v : Nat)
  | servoWrite (v : ℚ)
  deriving DecidableEq, Repr

/-- Occurrences of an action in an action trace. -/
def countAct (l : List Action) (a : Action) : Nat :=
  (l.filter fun x => decide (x = a)).length

theorem countAct_append (l1 l2 : List Action) (a : Action) :
    countAct (l1 ++ l2) a = countAct l1 a + countAct l2 a := by
  simp [countAct, List.filter_append]

namespace ArduinoBoard

/-- Timing constants set in the constructor (arduino-board lines 152-187). -/
def digitalReadInterval : Nat := 20

def connectingWaitingTime : Nat := 1000

def analogReadInterval : Nat := 20

def sendingInterval : Nat := 10

def updateDigitalInputWaitingTime : Nat := 100

def updateAnalogInputWaitingTime : Nat := 100

/-- JS truthiness of the `updateTime` field in
`this.pins[pin].updateTime && ...`: `undefined` and `0` are falsy. -/
def timeTruthy : Option Nat → Bool
  | none => false
  | some t => t != 0

/-- Source `isConnected()` (lines 293-295). -/
def isConnected (b : Board) : Bool :=
  b.state = BState.connect || b.state = BState.ready

/-- Source `isReady()` (lines 301-303). -/
def isReady (b : Board) : Bool :=
  b.state = BState.ready

/-- Source `releaseBoard()` (lines 308-323): set state `'disconnect'`; if a
firmata handle exists, close its transport when open and detach its
listeners, then drop the handle; clear `extensionId`; finally emit the
RELEASED event.  The emission is outside the `if (this.firmata)` block, so
it happens on every call. -/
def releaseBoard (b : Board) : Board × List Action :=
  let work : List Action :=
    match b.firmata with
    | some f =>
        (if f.isOpen then [Action.closeTransport] else []) ++ [Action.removeListeners]
    | none => []
  ({ state := BState.disconnect, firmata := none, extensionId := none },
    work ++ [Action.emitReleased])

/-- Source `disconnect()` (lines 328-334): no-op when already
`'disconnect'`; otherwise `firmata.reset()` (when a handle exists) then
`releaseBoard()`. -/
def disconnect (b : Board) : Board × List Action :=
  if b.state = BState.disconnect then (b, [])
  else
    let resetActs : List Action :=
      match b.firmata with
      | some _ => [Action.resetFirmata]
      | none => []
    let r := releaseBoard b
    (r.1, resetActs ++ r.2)

/-- Source `handleDisconnectError(error)` (lines 348-357): no-op when
already `'disconnect'`; otherwise emit PERIPHERAL_CONNECTION_LOST_ERROR to
the runtime and call `disconnect()`. -/
def handleDisconnectError (b : Board) : Board × List Action :=
  if b.state = BState.disconnect then (b, [])
  else
    let r := disconnect b
    (r.1, Action.emitConnectionLost :: r.2)

/-- Source `onBoarReady()` (lines 278-287): log firmware identity,
`firmata.i2cConfig()`, set state `'ready'`. -/
def onBoarReady (b : Board) : Board × List Action :=
  ({ b with state := BState.ready }, [Action.i2cConfig])

/-- Lifecycle signals a firmata handle can emit. -/
inductive Signal
  | openSig
  | closeSig
  | disconnectSig
  | errorSig
  | readySig
  deriving DecidableEq, Repr

/-- The signal handlers registered in `setupFirmata` (lines 194-222) and the
`'ready'` handler registered in `connectSerial` (lines 260-264), dispatched
on the signal kind.  Every handler first runs the stale guard
`if (this.firmata !== firmata) return;` — `emitter` is the handle the
handler was registered on.  The non-stale `'ready'` handler additionally
resolves the pending connect promise (`resolve(this)`). -/
def handleSignal (b : Board) (emitter : Firmata) (s : Signal) : Board × List Action :=
  if b.firmata ≠ some emitter then (b, [])
  else
    match s with
    | Signal.openSig => ({ b with state := BState.connect }, [])
    | Signal.closeSig =>
        if b.state = BState.disconnect then (b, []) else releaseBoard b
    | Signal.disconnectSig =>
        if b.state = BState.disconnect then (b, []) else handleDisconnectError b
    | Signal.errorSig =>
        if b.state = BState.disconnect then (b, []) else handleDisconnectError b
    | Signal.readySig =>
        let r := onBoarReady b
        (r.1, r.2 ++ [Action.resolveConnect])

/-- Source `setupFirmata(firmata)` (lines 194-222): registers the signal
handlers (their behaviour is `handleSignal`) and installs the handle as
`this.firmata`. -/
def setupFirmata (b : Board) (fir : Firmata) : Board :=
  { b with firmata := some fir }

/-- External behaviour of one `connectSerial` attempt: whether
`openSerialPort` succeeds, the fresh `Firmata` handle constructed from the
opened port, and the time (from the start of the attempt, in ms) at which
the handle fires `'ready'` (`none` = the signal never arrives). -/
structure ConnectEnv where
  openSucceeds : Bool
  newFirmata : Firmata
  readyAt : Option Nat
  deriving Repr

/-- How the promise returned by `connectSerial` settles. -/
inductive ConnectOutcome
  | alreadyOpen
  | rejected
  | resolvedReady
  | pending
  deriving DecidableEq, Repr

/-- Source `connectSerial(options)` (lines 252-273).  Resolves immediately
when a firmata handle already exists; otherwise sets state
`'portRequesting'` and opens the port.  On open failure the `.catch`
handler runs `releaseBoard()` and rejects.  On open success it runs
`setupFirmata` and waits for the `'ready'` handler.  The line
`Promise.race([request, timeoutReject(this.connectingWaitingTime)])` is
commented out in the source (line 267) and the bare `request` is returned,
so the attempt has no deadline: when `'ready'` fires — however late — it
resolves through `onBoarReady`, and when `'ready'` never fires the promise
stays pending forever. -/
def connectSerial (b : Board) (env : ConnectEnv) : ConnectOutcome × Board × List Action :=
  if b.firmata.isSome then (ConnectOutcome.alreadyOpen, b, [])
  else
    let b1 := { b with state := BState.portRequesting }
    if env.openSucceeds then
      let b2 := setupFirmata b1 env.newFirmata
      match env.readyAt with
      | some _ =>
          let r := onBoarReady b2
          (ConnectOutcome.resolvedReady, r.1,
            Action.requestOpen :: (r.2 ++ [Action.resolveConnect]))
      | none =>
          (ConnectOutcome.pending, b2, [Action.requestOpen])
    else
      let r := releaseBoard b1
      (ConnectOutcome.rejected, r.1, Action.requestOpen :: r.2)

/-- Calling `releaseBoard` n times in immediate succession, accumulating
the emitted actions. -/
def releaseN : Nat → Board → Board × List Action
  | 0, b => (b, [])
  | n + 1, b =>
      let r1 := releaseBoard b
      let r2 := releaseN n r1.1
      (r2.1, r1.2 ++ r2.2)

/-- How a pin-read promise settles: `resolved v` (with the value passed to
`resolve`) or rejection by the `timeoutReject` timer. -/
inductive ReadResult
  | resolved (v : Nat)
  | timedOut
  deriving DecidableEq, Repr

/-- The input bias applied before a digital read (lines 486-488): when the
recorded bias is not PULLUP it is set to INPUT, then used as the mode. -/
def digitalBias (p : Pin) : Option Nat :=
  if p.inputBias ≠ some MODES_PULLUP then some MODES_INPUT else p.inputBias

/-- Source `updateDigitalInput(pin)` (lines 471-507) acting on the pin
record `this.pins[pin]`.  `now` is `Date.now()` at call time; `sample`
says whether and when the `digital-read-<pin>` event fires (value and
absolute arrival time); the request wins the race against
`timeoutReject(updateDigitalInputWaitingTime)` exactly when the sample
arrives before the deadline.  The external `firmata.pinMode(pin, bias)`
call records the mode on the pin record (firmata client behaviour) and is
traced as an action.  On timeout the `.catch` handler resets the cached
value to 0 and the rejection propagates; `.finally` clears `updating` on
every settled path. -/
def updateDigitalInput (p : Pin) (now : Nat) (sample : Option (Nat × Nat)) :
    ReadResult × Pin × List Action :=
  if p.mode.isSome ∧ p.mode ≠ some MODES_INPUT ∧ p.mode ≠ some MODES_PULLUP then
    (ReadResult.resolved p.value, p, [])
  else if p.updating = true ∨
      (timeTruthy p.updateTime = true ∧ now - p.updateTime.getD 0 < digitalReadInterval) then
    (ReadResult.resolved p.value, p, [])
  else
    let bias := digitalBias p
    let p1 := { p with updating := true, inputBias := bias, mode := bias }
    let cmds := [Action.pinMode bias, Action.reportDigital 1]
    match sample with
    | some (v, t) =>
        if t < now + updateDigitalInputWaitingTime then
          (ReadResult.resolved v,
            { p1 with value := v, updateTime := some t, updating := false },
            cmds ++ [Action.reportDigital 0])
        else
          (ReadResult.timedOut, { p1 with value := 0, updating := false }, cmds)
    | none =>
        (ReadResult.timedOut, { p1 with value := 0, updating := false }, cmds)

/-- Source `updateAnalogInput(analogPin)` (lines 528-555) acting on the pin
record `this.pins[this.firmata.analogPins[analogPin]]`.  Same debounce /
in-flight guard as the digital read (without the mode check), then
`pinMode(analogPin, MODES.ANALOG)` and `reportAnalogPin(analogPin, 1)`,
racing the `analog-read-<analogPin>` event against
`timeoutReject(updateAnalogInputWaitingTime)`. -/
def updateAnalogInput (p : Pin) (now : Nat) (sample : Option (Nat × Nat)) :
    ReadResult × Pin × List Action :=
  if p.updating = true ∨
      (timeTruthy p.updateTime = true ∧ now - p.updateTime.getD 0 < analogReadInterval) then
    (ReadResult.resolved p.value, p, [])
  else
    let p1 := { p with updating := true, mode := some MODES_ANALOG }
    let cmds := [Action.pinMode (some MODES_ANALOG), Action.reportAnalog 1]
    match sample with
    | some (v, t) =>
        if t < now + updateAnalogInputWaitingTime then
          (ReadResult.resolved v,
            { p1 with value := v, updateTime := some t, updating := false },
            cmds ++ [Action.reportAnalog 0])
        else
          (ReadResult.timedOut, { p1 with value := 0, updating := false }, cmds)
    | none =>
        (ReadResult.timedOut, { p1 with value := 0, updating := false }, cmds)

/-- Source `setInputBias(pin, pullUp)` (lines 515-521): record the bias on
the pin, send the mode command, resolve after `sendingInterval`. -/
def setInputBias (p : Pin) (pullUp : Bool) : Pin × List Action :=
  let bias := if pullUp then MODES_PULLUP else MODES_INPUT
  ({ p with inputBias := some bias, mode := some bias }, [Action.pinMode (some bias)])

/-- Source `digitalWrite(pin, value, enqueue)` (lines 564-569): fire the
protocol write, resolve after `sendingInterval`; the cached read value is
not touched. -/
def digitalWrite (p : Pin) (value : Nat) : Pin × List Action :=
  (p, [Action.digitalWrite value])

/-- Source `servoWrite(pin, value)` (lines 590-595). -/
def servoWrite (p : Pin) (value : ℚ) : Pin × List Action :=
  (p, [Action.servoWrite value])

end ArduinoBoard

namespace ArduinoConnector

/-- Registry view of one board: identity, `isConnected()` and the
`portInfo` descriptor captured at open time. -/
structure BoardRec where
  id : Nat
  connected : Bool
  usbVendorId : Nat
  usbProductId : Nat
  deriving DecidableEq, Repr

/-- One entry of `options.filters`. -/
structure Filter where
  usbVendorId : Nat
  usbProductId : Nat
  deriving DecidableEq, Repr

/-- Events the connector emits to its listeners.  The source defines both
event names (`BOARD_ADDED`, `BOARD_REMOVED`). -/
inductive RegistryEvent
  | boardAdded (b : BoardRec)
  | boardRemoved (b : BoardRec)
  deriving DecidableEq, Repr

/-- Source `findBoard(options)` (lines 62-68): `undefined` when the holder
is empty; the first board when no filters are given; otherwise the first
connected board whose descriptor matches some filter entry. -/
def findBoard (boards : List BoardRec) (filters : Option (List Filter)) :
    Option BoardRec :=
  if boards = [] then none
  else
    match filters with
    | none => boards.head?
    | some fs =>
        boards.find? fun b =>
          b.connected &&
            fs.any fun f =>
              (f.usbVendorId == b.usbVendorId) && (f.usbProductId == b.usbProductId)

/-- Source `addBoard(newBoard)` (lines 74-77): push and emit BOARD_ADDED. -/
def addBoard (boards : List BoardRec) (nb : BoardRec) :
    List BoardRec × List RegistryEvent :=
  (boards ++ [nb], [RegistryEvent.boardAdded nb])

/-- Source `removeBoard(removal)` (lines 83-88): `indexOf`; return when not
found; otherwise `splice` the entry out and emit — the source emits
`ArduinoConnector.BOARD_ADDED` (line 87), not BOARD_REMOVED. -/
def removeBoard (boards : List BoardRec) (removal : BoardRec) :
    List BoardRec × List RegistryEvent :=
  match boards.findIdx? fun x => x = removal with
  | none => (boards, [])
  | some i => (boards.eraseIdx i, [RegistryEvent.boardAdded removal])

/-- First step of `connectedBoard(extensionId)` (lines 95-102): either
resolve at once with the board `findBoard()` returned (sharing, nothing
constructed and no transport opened) or fall through to
`this.connectSerial(extensionId)`, which constructs a new `ArduinoBoard`
and opens a transport. -/
inductive AcquireStep
  | resolveShared (b : BoardRec)
  | openNewConnection
  deriving DecidableEq, Repr

/-- Source `connectedBoard(extensionId)` (lines 95-102), with the traced
actions of the chosen branch. -/
def connectedBoard (boards : List BoardRec) : AcquireStep × List Action :=
  match findBoard boards none with
  | some b => (AcquireStep.resolveShared b, [])
  | none => (AcquireStep.openNewConnection, [Action.requestOpen])

end ArduinoConnector

namespace ArduinoBlocks

/-- Source `isConnected()` of the block layer (lines 156-159): false when
no board is held, otherwise `this.board.isReady()`. -/
def isConnected (board : Option Board) : Bool :=
  match board with
  | none => false
  | some b => ArduinoBoard.isReady b

/-- Result of a command-surface command block. -/
inductive CmdResult
  | notConnected
  | pinNotAssigned
  | sent
  deriving DecidableEq, Repr

/-- Source `getDigitalLevel(args)` (lines 538-551): `false` when not
connected; `false` when `args.PIN === ''`; otherwise
`this.board.updateDigitalInput(pin)`, mapping a resolved value `0` to
`false` and anything else to `true`, and any rejection (`.catch`) to
`false`.  `connected` is the value of `this.isConnected()`; `p` is the pin
record the parsed pin number designates. -/
def getDigitalLevel (connected : Bool) (pinArg : String) (p : Pin) (now : Nat)
    (sample : Option (Nat × Nat)) : Bool × Pin × List Action :=
  if connected = false then (false, p, [])
  else if pinArg = "" then (false, p, [])
  else
    match ArduinoBoard.updateDigitalInput p now sample with
    | (ArduinoBoard.ReadResult.resolved v, p1, cmds) =>
        (if v = 0 then false else true, p1, cmds)
    | (ArduinoBoard.ReadResult.timedOut, p1, cmds) => (false, p1, cmds)

/-- The percentage computation of `getAnalogLevel` (line 471):
`Math.round((raw / 1023) * 1000) / 10`.  `Math.round` on a non-negative
argument is floor of the argument plus one half, which is Mathlib `round`
on `ℚ`. -/
def analogLevelOf (raw : Nat) : ℚ :=
  ((round ((raw : ℚ) / 1023 * 1000) : ℤ) : ℚ) / 10

/-- Source `getAnalogLevel(analogPin)` (lines 468-476): `0` when not
connected; otherwise `this.board.updateAnalogInput(analogPin)`, mapping a
resolved raw sample through `analogLevelOf` and any rejection (`.catch`)
to `0`. -/
def getAnalogLevel (connected : Bool) (p : Pin) (now : Nat)
    (sample : Option (Nat × Nat)) : ℚ × Pin × List Action :=
  if connected = false then (0, p, [])
  else
    match ArduinoBoard.updateAnalogInput p now sample with
    | (ArduinoBoard.ReadResult.resolved v, p1, cmds) => (analogLevelOf v, p1, cmds)
    | (ArduinoBoard.ReadResult.timedOut, p1, cmds) => (0, p1, cmds)

/-- Source `setDigitalLevel(args)` (lines 560-576): `'not connected'` when
not connected, `'pin not assigned'` when `args.PIN === ''`; otherwise set
the pin to OUTPUT and write HIGH or LOW.  `levelTruthy` is the value of
the level condition on `args.LEVEL` (lines 565-569). -/
def setDigitalLevel (connected : Bool) (pinArg : String) (levelTruthy : Bool) :
    CmdResult × List Action :=
  if connected = false then (CmdResult.notConnected, [])
  else if pinArg = "" then (CmdResult.pinNotAssigned, [])
  else
    let value := if levelTruthy then HIGH else LOW
    (CmdResult.sent, [Action.pinMode (some MODES_OUTPUT), Action.digitalWrite value])

/-- Source `setAnalogLevel(args)` (lines 585-593): guards as above, then a
PWM write of `round(RESOLUTION.PWM * clamp(level, 0, 100) / 100)`.
`RESOLUTION.PWM` of the firmata client is 255. -/
def setAnalogLevel (connected : Bool) (pinArg : String) (level : ℚ) :
    CmdResult × List Action :=
  if connected = false then (CmdResult.notConnected, [])
  else if pinArg = "" then (CmdResult.pinNotAssigned, [])
  else
    let percent := min (max level 0) 100
    let value := (round ((255 : ℚ) * (percent / 100))).toNat
    (CmdResult.sent, [Action.pinMode (some MODES_PWM), Action.pwmWrite value])

/-- Source block-layer `setInputBias(args)` (lines 611-617): guards as
above, then `this.board.setInputBias(pin, args.BIAS === 'pullUp')`. -/
def setInputBias (connected : Bool) (pinArg : String) (biasArg : String) (p : Pin) :
    CmdResult × Pin × List Action :=
  if connected = false then (CmdResult.notConnected, p, [])
  else if pinArg = "" then (CmdResult.pinNotAssigned, p, [])
  else
    let r := ArduinoBoard.setInputBias p (biasArg = "pullUp")
    (CmdResult.sent, r.1, r.2)

/-- The servo value computed by `servoTurn` (lines 631-632):
`90 - angle` clamped into `[0, 180]` by `Math.min(180, Math.max(0, ·))`. -/
def servoValue (angle : ℚ) : ℚ :=
  min 180 (max 0 (90 - angle))

/-- Source `servoTurn(args)` (lines 626-635): guards as above, then set the
pin to SERVO mode and write `servoValue angle`. -/
def servoTurn (connected : Bool) (pinArg : String) (angle : ℚ) :
    CmdResult × List Action :=
  if connected = false then (CmdResult.notConnected, [])
  else if pinArg = "" then (CmdResult.pinNotAssigned, [])
  else
    (CmdResult.sent,
      [Action.pinMode (some MODES_SERVO), Action.servoWrite (servoValue angle)])

end ArduinoBlocks

/-! Concrete fixtures used by counterexamples and witnesses. -/

/-- A freshly constructed board: state `'disconnect'`, no firmata handle. -/
def freshBoard : Board :=
  { state := BState.disconnect, firmata := none, extensionId := some "xcxArduino" }

/-- A live firmata handle with an open transport. -/
def fir1 : Firmata := { id := 1, isOpen := true, pins := [] }

/-- A second, distinct firmata handle (a superseded transport). -/
def fir2 : Firmata := { id := 2, isOpen := true, pins := [] }

/-- A board holding `fir1` in the ready state. -/
def readyBoard : Board :=
  { state := BState.ready, firmata := some fir1, extensionId := some "xcxArduino" }

/-- A connected registry entry with the descriptor from the spec scenario. -/
def regB0 : ArduinoConnector.BoardRec :=
  { id := 0, connected := true, usbVendorId := 0x04D8, usbProductId := 0xE83A }

/-!  Theorems settling the claims. -/

/-- C1: the claim says a connect attempt whose "ready" signal does not
arrive within `connectingWaitingTime` fails with a handshake timeout and is
released.  The source comments out the `Promise.race` against
`timeoutReject(this.connectingWaitingTime)` (line 267) and returns the bare
request, so: a "ready" arriving at 5000 ms — far past the configured
1000 ms — still resolves the connect successfully, and a "ready" that never
arrives leaves the call pending forever with the transport handle still
installed and no release emitted. -/
theorem connectSerial_has_no_handshake_deadline :
    (ArduinoBoard.connectSerial freshBoard
        { openSucceeds := true, newFirmata := fir1, readyAt := some 5000 }).1 =
      ArduinoBoard.ConnectOutcome.resolvedReady ∧
    ArduinoBoard.connectingWaitingTime < 5000 ∧
    (ArduinoBoard.connectSerial freshBoard
        { openSucceeds := true, newFirmata := fir1, readyAt := none }).1 =
      ArduinoBoard.ConnectOutcome.pending ∧
    (ArduinoBoard.connectSerial freshBoard
        { openSucceeds := true, newFirmata := fir1, readyAt := none }).2.1.firmata ≠ none ∧
    countAct (ArduinoBoard.connectSerial freshBoard
        { openSucceeds := true, newFirmata := fir1, readyAt := none }).2.2
      Action.emitReleased = 0 := by
  refine ⟨rfl, by decide, rfl, by decide, rfl⟩

/-- C6: on a registry holding exactly `regB0`, `removeBoard regB0` deletes
the board from the collection but emits the BOARD_ADDED event (source line
87), not BOARD_REMOVED; removing an absent board is a no-op with no
emission. -/
theorem removeBoard_emits_added_event :
    ArduinoConnector.removeBoard [regB0] regB0 =
      ([], [ArduinoConnector.RegistryEvent.boardAdded regB0]) ∧
    (∀ e ∈ (ArduinoConnector.removeBoard [regB0] regB0).2,
      e ≠ ArduinoConnector.RegistryEvent.boardRemoved regB0) ∧
    ArduinoConnector.removeBoard [] regB0 = ([], []) ∧
    ArduinoConnector.addBoard [] regB0 =
      ([regB0], [ArduinoConnector.RegistryEvent.boardAdded regB0]) := by
  refine ⟨by decide, by decide, by decide, by decide⟩

/-- C3: every lifecycle signal handler starts with the stale guard
`if (this.firmata !== firmata) return;` — when the emitting firmata handle
is not the board's current handle, the handler returns with the board (and
hence its pin table) unchanged and with no action: no state mutation, no
emission, no resolution of the pending connect. -/
theorem stale_signal_is_discarded (b : Board) (emitter : Firmata)
    (s : ArduinoBoard.Signal) (h : b.firmata ≠ some emitter) :
    ArduinoBoard.handleSignal b emitter s = (b, []) := by
  unfold ArduinoBoard.handleSignal
  rw [if_pos h]

/-- Witness for C3: a ready board holding `fir1` discards an error signal
emitted by the superseded handle `fir2`. -/
theorem stale_signal_is_discarded_witness :
    readyBoard.firmata ≠ some fir2 ∧
    ArduinoBoard.handleSignal readyBoard fir2 ArduinoBoard.Signal.errorSig =
      (readyBoard, []) :=
  ⟨by decide, stale_signal_is_discarded readyBoard fir2 ArduinoBoard.Signal.errorSig
    (by decide)⟩

/-- The board value `releaseBoard` always produces. -/
def releasedBoard : Board :=
  { state := BState.disconnect, firmata := none, extensionId := none }

theorem releaseBoard_fst (b : Board) :
    (ArduinoBoard.releaseBoard b).1 = releasedBoard := rfl

theorem releaseBoard_count_emit (b : Board) :
    countAct (ArduinoBoard.releaseBoard b).2 Action.emitReleased = 1 := by
  rcases b with ⟨st, _ | f, ext⟩
  · rfl
  · rcases f with ⟨fid, _ | _, fpins⟩ <;> rfl

theorem releaseBoard_count_work (b : Board) :
    countAct (ArduinoBoard.releaseBoard b).2 Action.removeListeners =
      if b.firmata.isSome then 1 else 0 := by
  rcases b with ⟨st, _ | f, ext⟩
  · rfl
  · rcases f with ⟨fid, _ | _, fpins⟩ <;> rfl

theorem releaseN_fst_released (n : Nat) :
    (ArduinoBoard.releaseN n releasedBoard).1 = releasedBoard := by
  induction n with
  | zero => rfl
  | succ m ih =>
      simpa [ArduinoBoard.releaseN, releaseBoard_fst] using ih

theorem releaseN_snd_released (n : Nat) :
    (ArduinoBoard.releaseN n releasedBoard).2 =
      List.replicate n Action.emitReleased := by
  induction n with
  | zero => rfl
  | succ m ih =>
      have h1 : (ArduinoBoard.releaseBoard releasedBoard).2 = [Action.emitReleased] := rfl
      simp [ArduinoBoard.releaseN, releaseBoard_fst, h1, ih, List.replicate_succ]

theorem releaseN_succ (n : Nat) (b : Board) :
    ArduinoBoard.releaseN (n + 1) b =
      ((ArduinoBoard.releaseN n releasedBoard).1,
        (ArduinoBoard.releaseBoard b).2 ++ (ArduinoBoard.releaseN n releasedBoard).2) := by
  simp [ArduinoBoard.releaseN, releaseBoard_fst]

theorem countAct_replicate_emit (n : Nat) :
    countAct (List.replicate n Action.emitReleased) Action.emitReleased = n := by
  induction n with
  | zero => rfl
  | succ m ih => simp [countAct, List.replicate_succ] at ih ⊢

theorem countAct_replicate_work (n : Nat) :
    countAct (List.replicate n Action.emitReleased) Action.removeListeners = 0 := by
  induction n with
  | zero => rfl
  | succ m ih => simp [countAct, List.replicate_succ] at ih ⊢

/-- C2 counterexample: two immediate `releaseBoard()` calls on a ready
board emit the RELEASED event twice, refuting "exactly one released event
in total" — the emission (line 322) sits outside the
`if (this.firmata)` block and runs on every call. -/
theorem releaseBoard_double_emit :
    countAct (ArduinoBoard.releaseN 2 readyBoard).2 Action.emitReleased = 2 ∧
    ¬ countAct (ArduinoBoard.releaseN 2 readyBoard).2 Action.emitReleased = 1 := by
  decide

/-- C2 amended: calling `releaseBoard()` N ≥ 1 times in immediate
succession leaves the state Disconnected after every call and only the
first call performs the transport teardown work (when a handle exists),
but every call emits a RELEASED event: N calls emit N events, not one. -/
theorem releaseBoard_emits_on_every_call (b : Board) (n : Nat) (h : 1 ≤ n) :
    countAct (ArduinoBoard.releaseN n b).2 Action.emitReleased = n ∧
    (∀ k, 1 ≤ k → (ArduinoBoard.releaseN k b).1.state = BState.disconnect) ∧
    countAct (ArduinoBoard.releaseN n b).2 Action.removeListeners =
      (if b.firmata.isSome then 1 else 0) := by
  obtain ⟨m, rfl⟩ : ∃ m, n = m + 1 := ⟨n - 1, (Nat.succ_pred_eq_of_pos h).symm⟩
  refine ⟨?_, ?_, ?_⟩
  · rw [releaseN_succ, countAct_append, releaseBoard_count_emit, releaseN_snd_released,
      countAct_replicate_emit, Nat.add_comm]
  · intro k hk
    obtain ⟨j, rfl⟩ : ∃ j, k = j + 1 := ⟨k - 1, (Nat.succ_pred_eq_of_pos hk).symm⟩
    rw [releaseN_succ, releaseN_fst_released]
    rfl
  · rw [releaseN_succ, countAct_append, releaseBoard_count_work, releaseN_snd_released,
      countAct_replicate_work, Nat.add_zero]

/-- Witness for the amended C2: three releases of a ready board emit three
RELEASED events, the state is Disconnected after each call, and the
listener teardown happens once. -/
theorem releaseBoard_emits_on_every_call_witness :
    1 ≤ 3 ∧
    (countAct (ArduinoBoard.releaseN 3 readyBoard).2 Action.emitReleased = 3 ∧
      (∀ k, 1 ≤ k →
        (ArduinoBoard.releaseN k readyBoard).1.state = BState.disconnect) ∧
      countAct (ArduinoBoard.releaseN 3 readyBoard).2 Action.removeListeners =
        (if readyBoard.firmata.isSome then 1 else 0)) :=
  ⟨by decide, releaseBoard_emits_on_every_call readyBoard 3 (by decide)⟩

/-- A fresh input pin: everything still undefined, nothing in flight. -/
def pinFresh : Pin :=
  { mode := none, value := 5, updateTime := none, updating := false, inputBias := none }

theorem digitalBias_cases (p : Pin) :
    ArduinoBoard.digitalBias p = some MODES_INPUT ∨
      ArduinoBoard.digitalBias p = some MODES_PULLUP := by
  unfold ArduinoBoard.digitalBias
  by_cases h : p.inputBias = some MODES_PULLUP
  · right
    rw [if_neg (by simpa using h)]
    exact h
  · left
    rw [if_pos h]

/-- A read arriving while `updating` is set, or while the cached sample is
still fresh, resolves the cached value, leaves the pin untouched, and
sends no protocol command. -/
theorem updateDigitalInput_cached (q : Pin) (now : Nat)
    (s : Option (Nat × Nat))
    (h2 : q.updating = true ∨
      (ArduinoBoard.timeTruthy q.updateTime = true ∧
        now - q.updateTime.getD 0 < ArduinoBoard.digitalReadInterval)) :
    ArduinoBoard.updateDigitalInput q now s =
      (ArduinoBoard.ReadResult.resolved q.value, q, []) := by
  unfold ArduinoBoard.updateDigitalInput
  by_cases h1 : q.mode.isSome ∧ q.mode ≠ some MODES_INPUT ∧ q.mode ≠ some MODES_PULLUP
  · rw [if_pos h1]
  · rw [if_neg h1, if_pos h2]

/-- The successful first read: guards pass, the sample `(v, t)` arrives
before the deadline, the value and timestamp are stored, `updating` is
cleared, and the trace is mode set, report on, report off. -/
theorem updateDigitalInput_success (p : Pin) (now v t : Nat)
    (hmode : ¬ (p.mode.isSome ∧ p.mode ≠ some MODES_INPUT ∧ p.mode ≠ some MODES_PULLUP))
    (hguard : ¬ (p.updating = true ∨
      (ArduinoBoard.timeTruthy p.updateTime = true ∧
        now - p.updateTime.getD 0 < ArduinoBoard.digitalReadInterval)))
    (ht : t < now + ArduinoBoard.updateDigitalInputWaitingTime) :
    ArduinoBoard.updateDigitalInput p now (some (v, t)) =
      (ArduinoBoard.ReadResult.resolved v,
        { p with mode := ArduinoBoard.digitalBias p,
                 inputBias := ArduinoBoard.digitalBias p,
                 value := v, updateTime := some t, updating := false },
        [Action.pinMode (ArduinoBoard.digitalBias p), Action.reportDigital 1,
          Action.reportDigital 0]) := by
  unfold ArduinoBoard.updateDigitalInput
  rw [if_neg hmode, if_neg hguard]
  simp [ht]

/-- C4: when the guards pass and no sample event arrives before the read
deadline (either no event at all, or one arriving at or after
`now + updateDigitalInputWaitingTime`), the read settles as a timeout
rejection, the pin's cached value becomes 0, `updating` is false
immediately after, and the action trace contains no board teardown
(no release emission, no transport close).  The same holds for the analog
read. -/
theorem read_timeout_resets_pin (p : Pin) (now : Nat)
    (hmode : ¬ (p.mode.isSome ∧ p.mode ≠ some MODES_INPUT ∧ p.mode ≠ some MODES_PULLUP))
    (hguard : ¬ (p.updating = true ∨
      (ArduinoBoard.timeTruthy p.updateTime = true ∧
        now - p.updateTime.getD 0 < ArduinoBoard.digitalReadInterval))) :
    ((ArduinoBoard.updateDigitalInput p now none).1 = ArduinoBoard.ReadResult.timedOut ∧
      (ArduinoBoard.updateDigitalInput p now none).2.1.value = 0 ∧
      (ArduinoBoard.updateDigitalInput p now none).2.1.updating = false ∧
      Action.emitReleased ∉ (ArduinoBoard.updateDigitalInput p now none).2.2 ∧
      Action.closeTransport ∉ (ArduinoBoard.updateDigitalInput p now none).2.2) ∧
    (∀ v t, now + ArduinoBoard.updateDigitalInputWaitingTime ≤ t →
      (ArduinoBoard.updateDigitalInput p now (some (v, t))).1 =
        ArduinoBoard.ReadResult.timedOut ∧
      (ArduinoBoard.updateDigitalInput p now (some (v, t))).2.1.value = 0 ∧
      (ArduinoBoard.updateDigitalInput p now (some (v, t))).2.1.updating = false) ∧
    ((ArduinoBoard.updateAnalogInput p now none).1 = ArduinoBoard.ReadResult.timedOut ∧
      (ArduinoBoard.updateAnalogInput p now none).2.1.value = 0 ∧
      (ArduinoBoard.updateAnalogInput p now none).2.1.updating = false ∧
      Action.emitReleased ∉ (ArduinoBoard.updateAnalogInput p now none).2.2 ∧
      Action.closeTransport ∉ (ArduinoBoard.updateAnalogInput p now none).2.2) := by
  have hguardA : ¬ (p.updating = true ∨
      (ArduinoBoard.timeTruthy p.updateTime = true ∧
        now - p.updateTime.getD 0 < ArduinoBoard.analogReadInterval)) := hguard
  refine ⟨?_, ?_, ?_⟩
  · unfold ArduinoBoard.updateDigitalInput
    rw [if_neg hmode, if_neg hguard]
    simp
  · intro v t htl
    unfold ArduinoBoard.updateDigitalInput
    rw [if_neg hmode, if_neg hguard]
    simp [Nat.not_lt.mpr htl]
  · unfold ArduinoBoard.updateAnalogInput
    rw [if_neg hguardA]
    simp

/-- Witness for C4: a fresh pin read at time 0 with no sample event. -/
theorem read_timeout_resets_pin_witness :
    (¬ (pinFresh.mode.isSome ∧ pinFresh.mode ≠ some MODES_INPUT ∧
        pinFresh.mode ≠ some MODES_PULLUP)) ∧
    (¬ (pinFresh.updating = true ∨
      (ArduinoBoard.timeTruthy pinFresh.updateTime = true ∧
        0 - pinFresh.updateTime.getD 0 < ArduinoBoard.digitalReadInterval))) ∧
    ((ArduinoBoard.updateDigitalInput pinFresh 0 none).1 =
        ArduinoBoard.ReadResult.timedOut ∧
      (ArduinoBoard.updateDigitalInput pinFresh 0 none).2.1.value = 0 ∧
      (ArduinoBoard.updateDigitalInput pinFresh 0 none).2.1.updating = false ∧
      Action.emitReleased ∉ (ArduinoBoard.updateDigitalInput pinFresh 0 none).2.2 ∧
      Action.closeTransport ∉ (ArduinoBoard.updateDigitalInput pinFresh 0 none).2.2) :=
  ⟨by decide, by decide,
    (read_timeout_resets_pin pinFresh 0 (by decide) (by decide)).1⟩

/-- C5: with a stale (or absent) cache, the first `updateDigitalInput`
issues exactly one report request and resolves the sampled value `v`; a
second call arriving while the cached sample is younger than
`digitalReadInterval` resolves the same `v` immediately, changes nothing
and issues no command, so the two back-to-back reads cause exactly one
protocol sample request in total; and any call arriving while `updating`
is set resolves the currently cached value with no command at all. -/
theorem back_to_back_reads_one_request (p : Pin) (now now2 v t : Nat)
    (s2 : Option (Nat × Nat))
    (hmode : ¬ (p.mode.isSome ∧ p.mode ≠ some MODES_INPUT ∧ p.mode ≠ some MODES_PULLUP))
    (hguard : ¬ (p.updating = true ∨
      (ArduinoBoard.timeTruthy p.updateTime = true ∧
        now - p.updateTime.getD 0 < ArduinoBoard.digitalReadInterval)))
    (ht : t < now + ArduinoBoard.updateDigitalInputWaitingTime)
    (ht0 : t ≠ 0)
    (hfresh : now2 - t < ArduinoBoard.digitalReadInterval) :
    (ArduinoBoard.updateDigitalInput p now (some (v, t))).1 =
      ArduinoBoard.ReadResult.resolved v ∧
    ArduinoBoard.updateDigitalInput
        (ArduinoBoard.updateDigitalInput p now (some (v, t))).2.1 now2 s2 =
      (ArduinoBoard.ReadResult.resolved v,
        (ArduinoBoard.updateDigitalInput p now (some (v, t))).2.1, []) ∧
    countAct ((ArduinoBoard.updateDigitalInput p now (some (v, t))).2.2 ++
        (ArduinoBoard.updateDigitalInput
          (ArduinoBoard.updateDigitalInput p now (some (v, t))).2.1 now2 s2).2.2)
      (Action.reportDigital 1) = 1 ∧
    (∀ q : Pin, q.updating = true →
      ArduinoBoard.updateDigitalInput q now2 s2 =
        (ArduinoBoard.ReadResult.resolved q.value, q, [])) := by
  have h1 := updateDigitalInput_success p now v t hmode hguard ht
  have hval : (ArduinoBoard.updateDigitalInput p now (some (v, t))).2.1.value = v := by
    rw [h1]
  have hupd :
      (ArduinoBoard.updateDigitalInput p now (some (v, t))).2.1.updateTime = some t := by
    rw [h1]
  have hsecond := updateDigitalInput_cached
    (ArduinoBoard.updateDigitalInput p now (some (v, t))).2.1 now2 s2
    (Or.inr ⟨by rw [hupd]; simpa [ArduinoBoard.timeTruthy] using ht0,
      by rw [hupd]; simpa using hfresh⟩)
  rw [hval] at hsecond
  refine ⟨by rw [h1], hsecond, ?_,
    fun q hq => updateDigitalInput_cached q now2 s2 (Or.inl hq)⟩
  rw [hsecond, h1]
  simp [countAct]

/-- Witness for C5: a fresh pin, first read at 100 ms sampling 1 at 105 ms,
second read at 110 ms with no further event. -/
theorem back_to_back_reads_one_request_witness :
    (¬ (pinFresh.mode.isSome ∧ pinFresh.mode ≠ some MODES_INPUT ∧
        pinFresh.mode ≠ some MODES_PULLUP)) ∧
    (105 : Nat) < 100 + ArduinoBoard.updateDigitalInputWaitingTime ∧
    (110 : Nat) - 105 < ArduinoBoard.digitalReadInterval ∧
    ((ArduinoBoard.updateDigitalInput pinFresh 100 (some (1, 105))).1 =
        ArduinoBoard.ReadResult.resolved 1 ∧
      ArduinoBoard.updateDigitalInput
          (ArduinoBoard.updateDigitalInput pinFresh 100 (some (1, 105))).2.1 110 none =
        (ArduinoBoard.ReadResult.resolved 1,
          (ArduinoBoard.updateDigitalInput pinFresh 100 (some (1, 105))).2.1, []) ∧
      countAct ((ArduinoBoard.updateDigitalInput pinFresh 100 (some (1, 105))).2.2 ++
          (ArduinoBoard.updateDigitalInput
            (ArduinoBoard.updateDigitalInput pinFresh 100 (some (1, 105))).2.1
            110 none).2.2)
        (Action.reportDigital 1) = 1 ∧
      (∀ q : Pin, q.updating = true →
        ArduinoBoard.updateDigitalInput q 110 none =
          (ArduinoBoard.ReadResult.resolved q.value, q, []))) :=
  ⟨by decide, by decide, by decide,
    back_to_back_reads_one_request pinFresh 100 110 1 105 none
      (by decide) (by decide) (by decide) (by decide) (by decide)⟩

/-- C7: whenever `findBoard()` without options returns a board,
`connectedBoard` resolves with that very board and performs no port
request (no new `ArduinoBoard` is constructed, no transport opened); in
particular after the registry gained a single board `b1`, a further
acquire resolves with `b1` itself. -/
theorem connectedBoard_shares_existing (bs : List ArduinoConnector.BoardRec)
    (b : ArduinoConnector.BoardRec)
    (h : ArduinoConnector.findBoard bs none = some b) :
    ArduinoConnector.connectedBoard bs =
      (ArduinoConnector.AcquireStep.resolveShared b, []) ∧
    (∀ b1, ArduinoConnector.connectedBoard (ArduinoConnector.addBoard [] b1).1 =
      (ArduinoConnector.AcquireStep.resolveShared b1, [])) := by
  constructor
  · unfold ArduinoConnector.connectedBoard
    rw [h]
  · intro b1
    rfl

/-- Witness for C7: the one-board registry `[regB0]`. -/
theorem connectedBoard_shares_existing_witness :
    ArduinoConnector.findBoard [regB0] none = some regB0 ∧
    (ArduinoConnector.connectedBoard [regB0] =
      (ArduinoConnector.AcquireStep.resolveShared regB0, []) ∧
    (∀ b1, ArduinoConnector.connectedBoard (ArduinoConnector.addBoard [] b1).1 =
      (ArduinoConnector.AcquireStep.resolveShared b1, []))) :=
  ⟨by decide, connectedBoard_shares_existing [regB0] regB0 (by decide)⟩

/-- A board in the `'connect'` state: connected, but not yet ready. -/
def connectBoard : Board :=
  { state := BState.connect, firmata := some fir1, extensionId := some "xcxArduino" }

/-- C8: while the held board is not ready (including no board at all),
`isConnected()` of the block layer is false and every command-surface pin
operation returns its neutral result — false for the digital read, 0 for
the analog level, `'not connected'` for the commands — with no protocol
action; and with the empty pin sentinel every pin-taking operation
short-circuits to its "pin not assigned" / safe default, also with no
protocol action. -/
theorem command_surface_neutral_defaults (board : Option Board)
    (h : ∀ b, board = some b → b.state ≠ BState.ready)
    (pinArg : String) (p : Pin) (now : Nat) (sample : Option (Nat × Nat))
    (lv : Bool) (biasArg : String) (level angle : ℚ) :
    ArduinoBlocks.isConnected board = false ∧
    ArduinoBlocks.getDigitalLevel (ArduinoBlocks.isConnected board) pinArg p now sample =
      (false, p, []) ∧
    ArduinoBlocks.getAnalogLevel (ArduinoBlocks.isConnected board) p now sample =
      (0, p, []) ∧
    ArduinoBlocks.setDigitalLevel (ArduinoBlocks.isConnected board) pinArg lv =
      (ArduinoBlocks.CmdResult.notConnected, []) ∧
    ArduinoBlocks.setAnalogLevel (ArduinoBlocks.isConnected board) pinArg level =
      (ArduinoBlocks.CmdResult.notConnected, []) ∧
    ArduinoBlocks.setInputBias (ArduinoBlocks.isConnected board) pinArg biasArg p =
      (ArduinoBlocks.CmdResult.notConnected, p, []) ∧
    ArduinoBlocks.servoTurn (ArduinoBlocks.isConnected board) pinArg angle =
      (ArduinoBlocks.CmdResult.notConnected, []) ∧
    ArduinoBlocks.getDigitalLevel true "" p now sample = (false, p, []) ∧
    ArduinoBlocks.setDigitalLevel true "" lv =
      (ArduinoBlocks.CmdResult.pinNotAssigned, []) ∧
    ArduinoBlocks.setAnalogLevel true "" level =
      (ArduinoBlocks.CmdResult.pinNotAssigned, []) ∧
    ArduinoBlocks.setInputBias true "" biasArg p =
      (ArduinoBlocks.CmdResult.pinNotAssigned, p, []) ∧
    ArduinoBlocks.servoTurn true "" angle =
      (ArduinoBlocks.CmdResult.pinNotAssigned, []) := by
  have hc : ArduinoBlocks.isConnected board = false := by
    cases board with
    | none => rfl
    | some b =>
        have hb := h b rfl
        simp [ArduinoBlocks.isConnected, ArduinoBoard.isReady, hb]
  rw [hc]
  exact ⟨rfl, rfl, rfl, rfl, rfl, rfl, rfl, rfl, rfl, rfl, rfl, rfl⟩

/-- Witness for C8: a board in the `'connect'` state (connected but not
ready), pin "13". -/
theorem command_surface_neutral_defaults_witness :
    (∀ b, (some connectBoard : Option Board) = some b →
      b.state ≠ BState.ready) ∧
    (ArduinoBlocks.isConnected (some connectBoard) = false ∧
      ArduinoBlocks.getDigitalLevel (ArduinoBlocks.isConnected (some connectBoard))
          "13" pinFresh 0 none = (false, pinFresh, []) ∧
      ArduinoBlocks.getAnalogLevel (ArduinoBlocks.isConnected (some connectBoard))
          pinFresh 0 none = (0, pinFresh, []) ∧
      ArduinoBlocks.setDigitalLevel (ArduinoBlocks.isConnected (some connectBoard))
          "13" true = (ArduinoBlocks.CmdResult.notConnected, []) ∧
      ArduinoBlocks.setAnalogLevel (ArduinoBlocks.isConnected (some connectBoard))
          "13" 50 = (ArduinoBlocks.CmdResult.notConnected, []) ∧
      ArduinoBlocks.setInputBias (ArduinoBlocks.isConnected (some connectBoard))
          "13" "pullUp" pinFresh = (ArduinoBlocks.CmdResult.notConnected, pinFresh, []) ∧
      ArduinoBlocks.servoTurn (ArduinoBlocks.isConnected (some connectBoard))
          "13" 30 = (ArduinoBlocks.CmdResult.notConnected, []) ∧
      ArduinoBlocks.getDigitalLevel true "" pinFresh 0 none = (false, pinFresh, []) ∧
      ArduinoBlocks.setDigitalLevel true "" true =
        (ArduinoBlocks.CmdResult.pinNotAssigned, []) ∧
      ArduinoBlocks.setAnalogLevel true "" 50 =
        (ArduinoBlocks.CmdResult.pinNotAssigned, []) ∧
      ArduinoBlocks.setInputBias true "" "pullUp" pinFresh =
        (ArduinoBlocks.CmdResult.pinNotAssigned, pinFresh, []) ∧
      ArduinoBlocks.servoTurn true "" 30 =
        (ArduinoBlocks.CmdResult.pinNotAssigned, [])) :=
  ⟨fun b hb => by cases Option.some.inj hb; decide,
    command_surface_neutral_defaults (some connectBoard)
      (fun b hb => by cases Option.some.inj hb; decide)
      "13" pinFresh 0 none true "pullUp" 50 30⟩

/-- C10: for every angle input, the servo-turn command (when connected and
the pin is assigned) sets the pin to SERVO mode and writes exactly
`min 180 (max 0 (90 - angle))` — the angle inverted about the 90-degree
midpoint and clamped — and this servo value always lies in `[0, 180]`. -/
theorem servoTurn_inverts_and_clamps (pinArg : String) (angle : ℚ)
    (hp : pinArg ≠ "") :
    ArduinoBlocks.servoTurn true pinArg angle =
      (ArduinoBlocks.CmdResult.sent,
        [Action.pinMode (some MODES_SERVO),
          Action.servoWrite (min 180 (max 0 (90 - angle)))]) ∧
    0 ≤ ArduinoBlocks.servoValue angle ∧
    ArduinoBlocks.servoValue angle ≤ 180 := by
  refine ⟨?_, ?_, ?_⟩
  · unfold ArduinoBlocks.servoTurn
    rw [if_neg (by simp), if_neg hp]
    rfl
  · exact le_min (by norm_num) (le_max_left 0 _)
  · exact min_le_left 180 _

/-- Witness for C10: pin "9", out-of-range angle 200, whose servo value is
clamped to 0. -/
theorem servoTurn_inverts_and_clamps_witness :
    ("9" : String) ≠ "" ∧
    (ArduinoBlocks.servoTurn true "9" 200 =
      (ArduinoBlocks.CmdResult.sent,
        [Action.pinMode (some MODES_SERVO),
          Action.servoWrite (min 180 (max 0 (90 - 200)))]) ∧
    0 ≤ ArduinoBlocks.servoValue 200 ∧
    ArduinoBlocks.servoValue 200 ≤ 180) :=
  ⟨by decide, servoTurn_inverts_and_clamps "9" 200 (by decide)⟩

theorem updateAnalogInput_success (p : Pin) (now v t : Nat)
    (hguard : ¬ (p.updating = true ∨
      (ArduinoBoard.timeTruthy p.updateTime = true ∧
        now - p.updateTime.getD 0 < ArduinoBoard.analogReadInterval)))
    (ht : t < now + ArduinoBoard.updateAnalogInputWaitingTime) :
    (ArduinoBoard.updateAnalogInput p now (some (v, t))).1 =
      ArduinoBoard.ReadResult.resolved v := by
  unfold ArduinoBoard.updateAnalogInput
  rw [if_neg hguard]
  simp [ht]

theorem updateAnalogInput_none (p : Pin) (now : Nat)
    (hguard : ¬ (p.updating = true ∨
      (ArduinoBoard.timeTruthy p.updateTime = true ∧
        now - p.updateTime.getD 0 < ArduinoBoard.analogReadInterval))) :
    (ArduinoBoard.updateAnalogInput p now none).1 =
      ArduinoBoard.ReadResult.timedOut := by
  unfold ArduinoBoard.updateAnalogInput
  rw [if_neg hguard]

theorem analogLevelOf_nonneg (v : Nat) : 0 ≤ ArduinoBlocks.analogLevelOf v := by
  unfold ArduinoBlocks.analogLevelOf
  have hx : (0 : ℚ) ≤ (v : ℚ) / 1023 * 1000 := by positivity
  have hr : (0 : ℤ) ≤ round ((v : ℚ) / 1023 * 1000) := by
    rw [round_eq]
    exact Int.le_floor.mpr (by push_cast; linarith)
  have : (0 : ℚ) ≤ ((round ((v : ℚ) / 1023 * 1000) : ℤ) : ℚ) := by exact_mod_cast hr
  linarith

theorem analogLevelOf_le_100 (v : Nat) (hv : v ≤ 1023) :
    ArduinoBlocks.analogLevelOf v ≤ 100 := by
  unfold ArduinoBlocks.analogLevelOf
  have hvq : (v : ℚ) ≤ 1023 := by exact_mod_cast hv
  have hx : (v : ℚ) / 1023 * 1000 ≤ 1000 := by
    rw [div_mul_eq_mul_div, div_le_iff₀ (by norm_num)]
    nlinarith
  have hr : round ((v : ℚ) / 1023 * 1000) ≤ round (1000 : ℚ) := by
    rw [round_eq, round_eq]
    exact Int.floor_mono (by linarith)
  have h1000 : round (1000 : ℚ) = 1000 := by
    simp
  rw [h1000] at hr
  have : ((round ((v : ℚ) / 1023 * 1000) : ℤ) : ℚ) ≤ 1000 := by exact_mod_cast hr
  linarith

/-- C9: when connected and a raw analog sample `v` arrives in time, the
analog-level reporter resolves `round((v / 1023) * 1000) / 10`; for any
10-bit sample `v ≤ 1023` this level lies in `[0, 100]`; and when the
underlying read rejects (timeout), the reporter resolves 0. -/
theorem getAnalogLevel_formula (p : Pin) (now v t : Nat)
    (hguard : ¬ (p.updating = true ∨
      (ArduinoBoard.timeTruthy p.updateTime = true ∧
        now - p.updateTime.getD 0 < ArduinoBoard.analogReadInterval)))
    (ht : t < now + ArduinoBoard.updateAnalogInputWaitingTime) :
    (ArduinoBlocks.getAnalogLevel true p now (some (v, t))).1 =
      ((round ((v : ℚ) / 1023 * 1000) : ℤ) : ℚ) / 10 ∧
    (v ≤ 1023 →
      0 ≤ (ArduinoBlocks.getAnalogLevel true p now (some (v, t))).1 ∧
      (ArduinoBlocks.getAnalogLevel true p now (some (v, t))).1 ≤ 100) ∧
    (ArduinoBlocks.getAnalogLevel true p now none).1 = 0 := by
  have hres : (ArduinoBlocks.getAnalogLevel true p now (some (v, t))).1 =
      ArduinoBlocks.analogLevelOf v := by
    unfold ArduinoBlocks.getAnalogLevel
    rw [if_neg (by simp)]
    have hs := updateAnalogInput_success p now v t hguard ht
    rcases hu : ArduinoBoard.updateAnalogInput p now (some (v, t)) with ⟨r, p1, cmds⟩
    rw [hu] at hs
    simp at hs
    rw [hs]
  refine ⟨hres, fun hv => ?_, ?_⟩
  · rw [hres]
    exact ⟨analogLevelOf_nonneg v, analogLevelOf_le_100 v hv⟩
  · unfold ArduinoBlocks.getAnalogLevel
    rw [if_neg (by simp)]
    have hs := updateAnalogInput_none p now hguard
    rcases hu : ArduinoBoard.updateAnalogInput p now none with ⟨r, p1, cmds⟩
    rw [hu] at hs
    simp at hs
    rw [hs]

/-- Witness for C9: a fresh pin sampled at value 512 after 50 ms. -/
theorem getAnalogLevel_formula_witness :
    (¬ (pinFresh.updating = true ∨
      (ArduinoBoard.timeTruthy pinFresh.updateTime = true ∧
        0 - pinFresh.updateTime.getD 0 < ArduinoBoard.analogReadInterval))) ∧
    (50 : Nat) < 0 + ArduinoBoard.updateAnalogInputWaitingTime ∧
    ((ArduinoBlocks.getAnalogLevel true pinFresh 0 (some (512, 50))).1 =
      ((round ((512 : ℚ) / 1023 * 1000) : ℤ) : ℚ) / 10 ∧
    ((512 : Nat) ≤ 1023 →
      0 ≤ (ArduinoBlocks.getAnalogLevel true pinFresh 0 (some (512, 50))).1 ∧
      (ArduinoBlocks.getAnalogLevel true pinFresh 0 (some (512, 50))).1 ≤ 100) ∧
    (ArduinoBlocks.getAnalogLevel true pinFresh 0 none).1 = 0) :=
  ⟨by decide, by decide,
    getAnalogLevel_formula pinFresh 0 512 50 (by decide) (by decide)⟩

end XcxArduino
